import Mathlib

/-!
Verification of the PKCE customer-account authentication flow: a shallow
embedding of the auth initiation loader, the OAuth callback loader and the
order-list loader, together with the PKCE helpers (SHA-256, base64url).
-/

namespace CustomerAccountApi

/-! ### SHA-256 over byte lists (bytes are `Nat` values < 256, words < 2^32) -/

def M32 : Nat := 4294967296

def rotr32 (n x : Nat) : Nat := ((x >>> n) ||| (x <<< (32 - n))) % M32

def bigSigma0 (x : Nat) : Nat := (rotr32 2 x) ^^^ (rotr32 13 x) ^^^ (rotr32 22 x)

def bigSigma1 (x : Nat) : Nat := (rotr32 6 x) ^^^ (rotr32 11 x) ^^^ (rotr32 25 x)

def smallSigma0 (x : Nat) : Nat := (rotr32 7 x) ^^^ (rotr32 18 x) ^^^ (x >>> 3)

def smallSigma1 (x : Nat) : Nat := (rotr32 17 x) ^^^ (rotr32 19 x) ^^^ (x >>> 10)

def chFn (x y z : Nat) : Nat := (x &&& y) ^^^ ((x ^^^ 0xFFFFFFFF) &&& z)

def majFn (x y z : Nat) : Nat := (x &&& y) ^^^ (x &&& z) ^^^ (y &&& z)

/-- The 64 SHA-256 round constants of FIPS 180-4, in decimal. -/
def sha256K : List Nat :=
  [1116352408, 1899447441, 3049323471, 3921009573, 961987163, 1508970993,
   2453635748, 2870763221, 3624381080, 310598401, 607225278, 1426881987,
   1925078388, 2162078206, 2614888103, 3248222580, 3835390401, 4022224774,
   264347078, 604807628, 770255983, 1249150122, 1555081692, 1996064986,
   2554220882, 2821834349, 2952996808, 3210313671, 3336571891, 3584528711,
   113926993, 338241895, 666307205, 773529912, 1294757372, 1396182291,
   1695183700, 1986661051, 2177026350, 2456956037, 2730485921, 2820302411,
   3259730800, 3345764771, 3516065817, 3600352804, 4094571909, 275423344,
   430227734, 506948616, 659060556, 883997877, 958139571, 1322822218,
   1537002063, 1747873779, 1955562222, 2024104815, 2227730452, 2361852424,
   2428436474, 2756734187, 3204031479, 3329325298]

/-- The eight SHA-256 initial hash values of FIPS 180-4, in decimal. -/
def sha256H0 : List Nat :=
  [1779033703, 3144134277, 1013904242, 2773480762,
   1359893119, 2600822924, 528734635, 1541459225]

/-- `k` bytes of `n`, big-endian (most significant byte first). -/
def toBytesBE : Nat → Nat → List Nat
  | 0, _ => []
  | k + 1, n => toBytesBE k (n >>> 8) ++ [n &&& 0xFF]

/-- Merkle–Damgård padding: append 0x80, zero bytes to 56 mod 64, then the
64-bit big-endian bit length. -/
def padMessage (msg : List Nat) : List Nat :=
  msg ++ [0x80] ++ List.replicate ((119 - msg.length % 64) % 64) 0 ++ toBytesBE 8 (msg.length * 8)

/-- Groups of four bytes into big-endian 32-bit words. -/
def bytesToWords : List Nat → List Nat
  | a :: b :: c :: d :: rest => ((a <<< 24) ||| (b <<< 16) ||| (c <<< 8) ||| d) :: bytesToWords rest
  | _ => []

/-- Split a word list into 16-word blocks (fuel-based so it reduces in the kernel). -/
def chunk16Aux : Nat → List Nat → List (List Nat)
  | 0, _ => []
  | _ + 1, [] => []
  | n + 1, w :: rest => ((w :: rest).take 16) :: chunk16Aux n ((w :: rest).drop 16)

def chunk16 (ws : List Nat) : List (List Nat) := chunk16Aux ws.length ws

/-- Extend the 16-word block by `n` further schedule words. -/
def extendSchedule : Nat → List Nat → List Nat
  | 0, w => w
  | n + 1, w =>
    let l := w.length
    extendSchedule n (w ++ [(smallSigma1 (w.getD (l - 2) 0) + w.getD (l - 7) 0 +
      smallSigma0 (w.getD (l - 15) 0) + w.getD (l - 16) 0) % M32])

def messageSchedule (block : List Nat) : List Nat := extendSchedule 48 block

/-- One round of the SHA-256 compression function on state `[a,b,c,d,e,f,g,h]`. -/
def compressStep (s : List Nat) (k w : Nat) : List Nat :=
  let a := s.getD 0 0
  let b := s.getD 1 0
  let c := s.getD 2 0
  let d := s.getD 3 0
  let e := s.getD 4 0
  let f := s.getD 5 0
  let g := s.getD 6 0
  let h := s.getD 7 0
  let t1 := (h + bigSigma1 e + chFn e f g + k + w) % M32
  let t2 := (bigSigma0 a + majFn a b c) % M32
  [(t1 + t2) % M32, a, b, c, (d + t1) % M32, e, f, g]

def compressBlock (hs : List Nat) (block : List Nat) : List Nat :=
  let final := (List.zip sha256K (messageSchedule block)).foldl
    (fun s kw => compressStep s kw.1 kw.2) hs
  (List.zip hs final).map (fun p => (p.1 + p.2) % M32)

/-- SHA-256 digest of a byte list, as 32 bytes. -/
def sha256 (msg : List Nat) : List Nat :=
  (((chunk16 (bytesToWords (padMessage msg))).foldl compressBlock sha256H0).map
    (toBytesBE 4)).flatten

/-! ### base64url (Node `base64url` digest/`toString` encoding: no padding) -/

def base64urlAlphabet : List Char :=
  "ABCDEFGHIJKLMNOPQRSTUVWXYZabcdefghijklmnopqrstuvwxyz0123456789-_".data

def b64c (n : Nat) : Char := base64urlAlphabet.getD n 'A'

def base64urlEncode : List Nat → String
  | [] => ""
  | [a] => String.mk [b64c (a >>> 2), b64c ((a &&& 0x3) <<< 4)]
  | [a, b] => String.mk [b64c (a >>> 2), b64c (((a &&& 0x3) <<< 4) ||| (b >>> 4)),
      b64c ((b &&& 0xF) <<< 2)]
  | a :: b :: c :: rest =>
    String.mk [b64c (a >>> 2), b64c (((a &&& 0x3) <<< 4) ||| (b >>> 4)),
      b64c (((b &&& 0xF) <<< 2) ||| (c >>> 6)), b64c (c &&& 0x3F)] ++ base64urlEncode rest

/-! ### UTF-8 bytes of a string (`hash.update(string)` uses utf-8) -/

def utf8Enc (c : Nat) : List Nat :=
  if c < 0x80 then [c]
  else if c < 0x800 then [0xC0 ||| (c >>> 6), 0x80 ||| (c &&& 0x3F)]
  else if c < 0x10000 then
    [0xE0 ||| (c >>> 12), 0x80 ||| ((c >>> 6) &&& 0x3F), 0x80 ||| (c &&& 0x3F)]
  else
    [0xF0 ||| (c >>> 18), 0x80 ||| ((c >>> 12) &&& 0x3F), 0x80 ||| ((c >>> 6) &&& 0x3F),
     0x80 ||| (c &&& 0x3F)]

def strToBytes (s : String) : List Nat := (s.data.map (fun c => utf8Enc c.toNat)).flatten

/-! ### The PKCE challenge helper, as the source's hash-object pipeline:
`crypto.createHash("sha256").update(verifier).digest("base64url")` -/

structure Sha256Hasher where
  buffer : List Nat

def createHashSha256 : Sha256Hasher := ⟨[]⟩

def Sha256Hasher.update (h : Sha256Hasher) (s : String) : Sha256Hasher :=
  ⟨h.buffer ++ strToBytes s⟩

def Sha256Hasher.digestBase64url (h : Sha256Hasher) : String :=
  base64urlEncode (sha256 h.buffer)

def generateCodeChallenge (verifier : String) : String :=
  (createHashSha256.update verifier).digestBase64url

/-- The spec's description of the challenge: base64url of the SHA-256 digest of
the verifier's bytes (direct composition, not the hash-object pipeline). -/
def challengeSpec (v : String) : String := base64urlEncode (sha256 (strToBytes v))

set_option maxRecDepth 100000 in
/-- FIPS 180-4 test vector: SHA-256("abc"). -/
theorem sha256_abc :
    sha256 (strToBytes "abc") =
      [0xba, 0x78, 0x16, 0xbf, 0x8f, 0x01, 0xcf, 0xea, 0x41, 0x41, 0x40, 0xde,
       0x5d, 0xae, 0x22, 0x23, 0xb0, 0x03, 0x61, 0xa3, 0x96, 0x17, 0x7a, 0x9c,
       0xb4, 0x10, 0xff, 0x61, 0xf2, 0x00, 0x15, 0xad] := by
  decide

/-! ### Loader result values (the JS objects a loader returns) -/

inductive JVal where
  | jstr (s : String)
  | jbool (b : Bool)
  | jnum (n : Int)
  | jundefined
  deriving DecidableEq, Repr

/-- A URL with its search params in insertion order (the authorization endpoint
carries no pre-existing query string). -/
structure UrlWithParams where
  base : String
  params : List (String × String)
  deriving DecidableEq, Repr

/-- `URLSearchParams.set`: replace the value if the key is present, else append. -/
def UrlWithParams.setParam (u : UrlWithParams) (k v : String) : UrlWithParams :=
  if u.params.any (fun p => p.1 == k) then
    ⟨u.base, u.params.map (fun p => if p.1 == k then (k, v) else p)⟩
  else
    ⟨u.base, u.params ++ [(k, v)]⟩

/-- What a route loader produces: a redirect (optionally with a Set-Cookie
header) or a rendered data/error object. -/
inductive LoaderResult where
  | redirect (url : UrlWithParams) (setCookie : Option String)
  | page (fields : List (String × JVal))
  deriving DecidableEq, Repr

/-- Field lookup in a page result (`none` for redirects or absent fields). -/
def LoaderResult.field (r : LoaderResult) (k : String) : Option JVal :=
  match r with
  | .redirect _ _ => none
  | .page fields => (fields.find? (fun p => p.1 == k)).map (fun p => p.2)

/-! ### Database records and state (prisma models CodeVerifier and
CustomerAccessToken; timestamps in epoch milliseconds, `none` = SQL NULL) -/

structure CodeVerifierRecord where
  state : String
  verifier : String
  deriving DecidableEq, Repr

structure CustomerAccessTokenRecord where
  id : String
  shop : String
  accessToken : String
  expiresAt : Option Int
  deriving DecidableEq, Repr

structure DB where
  codeVerifiers : List CodeVerifierRecord
  customerAccessTokens : List CustomerAccessTokenRecord
  deriving DecidableEq, Repr

def DB.findCodeVerifier (db : DB) (s : String) : Option CodeVerifierRecord :=
  db.codeVerifiers.find? (fun r => r.state == s)

def DB.createCodeVerifier (db : DB) (s v : String) : DB :=
  { db with codeVerifiers := db.codeVerifiers ++ [⟨s, v⟩] }

def DB.deleteCodeVerifier (db : DB) (s : String) : DB :=
  { db with codeVerifiers := db.codeVerifiers.filter (fun r => r.state != s) }

def DB.findCustomerAccessToken (db : DB) (i : String) : Option CustomerAccessTokenRecord :=
  db.customerAccessTokens.find? (fun r => r.id == i)

def DB.createCustomerAccessToken (db : DB) (r : CustomerAccessTokenRecord) : DB :=
  { db with customerAccessTokens := db.customerAccessTokens ++ [r] }

/-- Observable side effects of a loader run (database operations and upstream
HTTP fetches), in execution order. -/
inductive Ev where
  | evFindVerifier (s : String)
  | evCreateVerifier (s v : String)
  | evDeleteVerifier (s : String)
  | evFindToken (i : String)
  | evCreateToken (i : String)
  | evFetchOpenidConfig (url : String)
  | evFetchWellKnown (url : String)
  | evFetchToken (url : String) (body : List (String × String))
  deriving DecidableEq, Repr

/-! ### Environment and upstream responses (modelled as inputs: the loaders are
deterministic in the response each upstream fetch returns) -/

structure Env where
  shopDomain : String
  clientId : String

/-- JS truthiness of an optional string (`null`/absent and `""` are falsy). -/
def jsTruthyOptStr : Option String → Bool
  | none => false
  | some s => s != ""

/-- JS truthiness of an optional number (`undefined` and `0` are falsy). -/
def jsTruthyOptNat : Option Nat → Bool
  | none => false
  | some n => n != 0

/-- Upstream responses seen by the auth initiation loader, plus the values its
random generators produced (randomness is an input of the embedding). -/
structure InitUpstream where
  openidOk : Bool
  openidStatusText : String
  authorizationEndpoint : String
  codeVerifier : String
  stateTok : String

/-- Upstream responses seen by the callback loader, the id prisma generated for
the created token row, the clock, and the session-cookie serializer. -/
structure CallbackUpstream where
  openidOk : Bool
  openidStatusText : String
  tokenEndpoint : String
  tokenOk : Bool
  tokenStatusText : String
  tokenBodyText : String
  accessToken : String
  expiresIn : Option Nat
  newTokenId : String
  now : Int
  commitCookie : String → String

/-- Upstream responses seen by the order-list loader, and the clock. -/
structure OrderListUpstream where
  wellKnownOk : Bool
  wellKnownStatusText : String
  graphqlApi : String
  now : Int

/-- The catch-block result of the callback and order-list loaders. -/
def failurePage (msg : String) : LoaderResult :=
  .page [("success", .jbool false), ("error", .jstr msg)]

/-! ### The auth initiation loader
(route `/customer-account-api/auth`, from the source's `loader`) -/

def initiationLoader (host : String) (env : Env) (up : InitUpstream) (db : DB) :
    LoaderResult × DB × List Ev :=
  let evs0 := [Ev.evFetchOpenidConfig
    ("https://" ++ env.shopDomain ++ "/.well-known/openid-configuration")]
  if !up.openidOk then
    (.page [("error", .jstr ("Failed to fetch OpenID configuration: " ++ up.openidStatusText))],
     db, evs0)
  else
    let codeChallenge := generateCodeChallenge up.codeVerifier
    let db1 := db.createCodeVerifier up.stateTok up.codeVerifier
    let callbackUrl := "https://" ++ host ++ "/customer-account-api/callback"
    let authUrl :=
      (((((((UrlWithParams.mk up.authorizationEndpoint []).setParam
        "client_id" env.clientId).setParam
        "response_type" "code").setParam
        "redirect_uri" callbackUrl).setParam
        "scope" "openid email customer-account-api:full").setParam
        "state" up.stateTok).setParam
        "code_challenge" codeChallenge).setParam
        "code_challenge_method" "S256"
    (.redirect authUrl none, db1, evs0 ++ [Ev.evCreateVerifier up.stateTok up.codeVerifier])

/-! ### The callback loader
(route `/customer-account-api/callback`, from the source's `loader`) -/

def callbackLoader (code stateParam : Option String) (host : String) (env : Env)
    (up : CallbackUpstream) (db : DB) : LoaderResult × DB × List Ev :=
  if !(jsTruthyOptStr code) || !(jsTruthyOptStr stateParam) then
    (failurePage "Missing code or state parameter", db, [])
  else
    let codeVal := code.getD ""
    let stateVal := stateParam.getD ""
    let evs1 := [Ev.evFindVerifier stateVal]
    match db.findCodeVerifier stateVal with
    | none => (failurePage "Invalid state parameter or code verifier not found", db, evs1)
    | some cvRecord =>
      let evs2 := evs1 ++ [Ev.evFetchOpenidConfig
        ("https://" ++ env.shopDomain ++ "/.well-known/openid-configuration")]
      if !up.openidOk then
        (failurePage ("Failed to fetch OpenID configuration: " ++ up.openidStatusText), db, evs2)
      else
        let callbackUrl := "https://" ++ host ++ "/customer-account-api/callback"
        let evs3 := evs2 ++ [Ev.evFetchToken up.tokenEndpoint
          [("grant_type", "authorization_code"), ("client_id", env.clientId),
           ("redirect_uri", callbackUrl), ("code", codeVal),
           ("code_verifier", cvRecord.verifier)]]
        if !up.tokenOk then
          (failurePage ("Token exchange failed: " ++ up.tokenStatusText ++ " - " ++
            up.tokenBodyText), db, evs3)
        else
          let expiresAt : Option Int :=
            if jsTruthyOptNat up.expiresIn then
              some (up.now + (up.expiresIn.getD 0 : Nat) * 1000)
            else none
          let db1 := db.createCustomerAccessToken
            ⟨up.newTokenId, env.shopDomain, up.accessToken, expiresAt⟩
          let db2 := db1.deleteCodeVerifier stateVal
          (.redirect ⟨"/customer-account-api/order-list", []⟩
             (some (up.commitCookie up.newTokenId)),
           db2, evs3 ++ [Ev.evCreateToken up.newTokenId, Ev.evDeleteVerifier stateVal])

/-! ### The order-list loader
(route `/customer-account-api/order-list`, from the source's `loader`) -/

def orderListLoader (tokenId : Option String) (env : Env) (up : OrderListUpstream) (db : DB) :
    LoaderResult × DB × List Ev :=
  if !(jsTruthyOptStr tokenId) then
    (failurePage "No customer authentication found. Please authenticate first.", db, [])
  else
    let idVal := tokenId.getD ""
    let evs1 := [Ev.evFindToken idVal]
    match db.findCustomerAccessToken idVal with
    | none => (failurePage "Access token not found", db, evs1)
    | some tok =>
      if (match tok.expiresAt with
          | none => false
          | some t => decide (up.now > t)) then
        (failurePage "Access token has expired", db, evs1)
      else
        let evs2 := evs1 ++ [Ev.evFetchWellKnown
          ("https://" ++ env.shopDomain ++ "/.well-known/customer-account-api")]
        if !up.wellKnownOk then
          (failurePage ("Failed to fetch Customer Account API configuration: " ++
            up.wellKnownStatusText), db, evs2)
        else
          (.page [("success", .jbool true), ("tokenId", .jstr tok.id),
            ("accessToken", .jstr tok.accessToken), ("shop", .jstr tok.shop),
            ("graphqlApiUrl", .jstr up.graphqlApi),
            ("expiresAt", match tok.expiresAt with
              | some t => .jnum t
              | none => .jundefined)], db, evs2)

/-! ### Branch equations for the three loaders -/

theorem initiationLoader_ng_eq (host : String) (env : Env) (up : InitUpstream) (db : DB)
    (hng : up.openidOk = false) :
    initiationLoader host env up db =
      (.page [("error",
         .jstr ("Failed to fetch OpenID configuration: " ++ up.openidStatusText))], db,
       [Ev.evFetchOpenidConfig
         ("https://" ++ env.shopDomain ++ "/.well-known/openid-configuration")]) := by
  unfold initiationLoader
  simp [hng]

theorem initiationLoader_ok_eq (host : String) (env : Env) (up : InitUpstream) (db : DB)
    (hok : up.openidOk = true) :
    initiationLoader host env up db =
      (.redirect ⟨up.authorizationEndpoint,
        [("client_id", env.clientId), ("response_type", "code"),
         ("redirect_uri", "https://" ++ host ++ "/customer-account-api/callback"),
         ("scope", "openid email customer-account-api:full"),
         ("state", up.stateTok),
         ("code_challenge", generateCodeChallenge up.codeVerifier),
         ("code_challenge_method", "S256")]⟩ none,
       db.createCodeVerifier up.stateTok up.codeVerifier,
       [Ev.evFetchOpenidConfig
          ("https://" ++ env.shopDomain ++ "/.well-known/openid-configuration"),
        Ev.evCreateVerifier up.stateTok up.codeVerifier]) := by
  unfold initiationLoader
  simp [hok, UrlWithParams.setParam]

theorem callbackLoader_missing_eq (code stateParam : Option String) (host : String)
    (env : Env) (up : CallbackUpstream) (db : DB)
    (h : (!(jsTruthyOptStr code) || !(jsTruthyOptStr stateParam)) = true) :
    callbackLoader code stateParam host env up db =
      (failurePage "Missing code or state parameter", db, []) := by
  unfold callbackLoader
  simp [h]

theorem callbackLoader_nostate_eq (code stateParam : Option String) (host : String)
    (env : Env) (up : CallbackUpstream) (db : DB)
    (hc : jsTruthyOptStr code = true) (hs : jsTruthyOptStr stateParam = true)
    (hfind : db.findCodeVerifier (stateParam.getD "") = none) :
    callbackLoader code stateParam host env up db =
      (failurePage "Invalid state parameter or code verifier not found", db,
       [Ev.evFindVerifier (stateParam.getD "")]) := by
  unfold callbackLoader
  simp [hc, hs, hfind]

theorem callbackLoader_openid_ng_eq (code stateParam : Option String) (host : String)
    (env : Env) (up : CallbackUpstream) (db : DB) (r : CodeVerifierRecord)
    (hc : jsTruthyOptStr code = true) (hs : jsTruthyOptStr stateParam = true)
    (hfind : db.findCodeVerifier (stateParam.getD "") = some r)
    (hng : up.openidOk = false) :
    callbackLoader code stateParam host env up db =
      (failurePage ("Failed to fetch OpenID configuration: " ++ up.openidStatusText), db,
       [Ev.evFindVerifier (stateParam.getD ""),
        Ev.evFetchOpenidConfig
          ("https://" ++ env.shopDomain ++ "/.well-known/openid-configuration")]) := by
  unfold callbackLoader
  simp [hc, hs, hfind, hng]

theorem callbackLoader_token_ng_eq (code stateParam : Option String) (host : String)
    (env : Env) (up : CallbackUpstream) (db : DB) (r : CodeVerifierRecord)
    (hc : jsTruthyOptStr code = true) (hs : jsTruthyOptStr stateParam = true)
    (hfind : db.findCodeVerifier (stateParam.getD "") = some r)
    (hok : up.openidOk = true) (hng : up.tokenOk = false) :
    callbackLoader code stateParam host env up db =
      (failurePage ("Token exchange failed: " ++ up.tokenStatusText ++ " - " ++
         up.tokenBodyText), db,
       [Ev.evFindVerifier (stateParam.getD ""),
        Ev.evFetchOpenidConfig
          ("https://" ++ env.shopDomain ++ "/.well-known/openid-configuration"),
        Ev.evFetchToken up.tokenEndpoint
          [("grant_type", "authorization_code"), ("client_id", env.clientId),
           ("redirect_uri", "https://" ++ host ++ "/customer-account-api/callback"),
           ("code", code.getD ""), ("code_verifier", r.verifier)]]) := by
  unfold callbackLoader
  simp [hc, hs, hfind, hok, hng]

theorem callbackLoader_success_eq (code stateParam : Option String) (host : String)
    (env : Env) (up : CallbackUpstream) (db : DB) (r : CodeVerifierRecord)
    (hc : jsTruthyOptStr code = true) (hs : jsTruthyOptStr stateParam = true)
    (hfind : db.findCodeVerifier (stateParam.getD "") = some r)
    (hok : up.openidOk = true) (htok : up.tokenOk = true) :
    callbackLoader code stateParam host env up db =
      (.redirect ⟨"/customer-account-api/order-list", []⟩
         (some (up.commitCookie up.newTokenId)),
       (db.createCustomerAccessToken
          ⟨up.newTokenId, env.shopDomain, up.accessToken,
           if jsTruthyOptNat up.expiresIn then
             some (up.now + (up.expiresIn.getD 0 : Nat) * 1000)
           else none⟩).deleteCodeVerifier (stateParam.getD ""),
       [Ev.evFindVerifier (stateParam.getD ""),
        Ev.evFetchOpenidConfig
          ("https://" ++ env.shopDomain ++ "/.well-known/openid-configuration"),
        Ev.evFetchToken up.tokenEndpoint
          [("grant_type", "authorization_code"), ("client_id", env.clientId),
           ("redirect_uri", "https://" ++ host ++ "/customer-account-api/callback"),
           ("code", code.getD ""), ("code_verifier", r.verifier)],
        Ev.evCreateToken up.newTokenId, Ev.evDeleteVerifier (stateParam.getD "")]) := by
  unfold callbackLoader
  simp [hc, hs, hfind, hok, htok]

theorem orderListLoader_noauth_eq (tokenId : Option String) (env : Env)
    (up : OrderListUpstream) (db : DB) (h : jsTruthyOptStr tokenId = false) :
    orderListLoader tokenId env up db =
      (failurePage "No customer authentication found. Please authenticate first.", db, []) := by
  unfold orderListLoader
  simp [h]

theorem orderListLoader_notfound_eq (tokenId : Option String) (env : Env)
    (up : OrderListUpstream) (db : DB) (ht : jsTruthyOptStr tokenId = true)
    (hfind : db.findCustomerAccessToken (tokenId.getD "") = none) :
    orderListLoader tokenId env up db =
      (failurePage "Access token not found", db, [Ev.evFindToken (tokenId.getD "")]) := by
  unfold orderListLoader
  simp [ht, hfind]

theorem orderListLoader_expired_eq (tokenId : Option String) (env : Env)
    (up : OrderListUpstream) (db : DB) (tok : CustomerAccessTokenRecord) (t : Int)
    (ht : jsTruthyOptStr tokenId = true)
    (hfind : db.findCustomerAccessToken (tokenId.getD "") = some tok)
    (hexp : tok.expiresAt = some t) (hpast : t < up.now) :
    orderListLoader tokenId env up db =
      (failurePage "Access token has expired", db, [Ev.evFindToken (tokenId.getD "")]) := by
  unfold orderListLoader
  simp [ht, hfind, hexp, hpast]

theorem orderListLoader_wellknown_ng_eq (tokenId : Option String) (env : Env)
    (up : OrderListUpstream) (db : DB) (tok : CustomerAccessTokenRecord)
    (ht : jsTruthyOptStr tokenId = true)
    (hfind : db.findCustomerAccessToken (tokenId.getD "") = some tok)
    (hlive : (match tok.expiresAt with
              | none => false
              | some t => decide (up.now > t)) = false)
    (hng : up.wellKnownOk = false) :
    orderListLoader tokenId env up db =
      (failurePage ("Failed to fetch Customer Account API configuration: " ++
         up.wellKnownStatusText), db,
       [Ev.evFindToken (tokenId.getD ""),
        Ev.evFetchWellKnown
          ("https://" ++ env.shopDomain ++ "/.well-known/customer-account-api")]) := by
  unfold orderListLoader
  simp [ht, hfind, hlive, hng]

theorem orderListLoader_success_eq (tokenId : Option String) (env : Env)
    (up : OrderListUpstream) (db : DB) (tok : CustomerAccessTokenRecord)
    (ht : jsTruthyOptStr tokenId = true)
    (hfind : db.findCustomerAccessToken (tokenId.getD "") = some tok)
    (hlive : (match tok.expiresAt with
              | none => false
              | some t => decide (up.now > t)) = false)
    (hok : up.wellKnownOk = true) :
    orderListLoader tokenId env up db =
      (.page [("success", .jbool true), ("tokenId", .jstr tok.id),
         ("accessToken", .jstr tok.accessToken), ("shop", .jstr tok.shop),
         ("graphqlApiUrl", .jstr up.graphqlApi),
         ("expiresAt", match tok.expiresAt with
           | some t => .jnum t
           | none => .jundefined)], db,
       [Ev.evFindToken (tokenId.getD ""),
        Ev.evFetchWellKnown
          ("https://" ++ env.shopDomain ++ "/.well-known/customer-account-api")]) := by
  unfold orderListLoader
  simp [ht, hfind, hlive, hok]

/-! ### Supporting lemmas -/

theorem find?_filter_ne (l : List CodeVerifierRecord) (s : String) :
    (l.filter (fun r => r.state != s)).find? (fun r => r.state == s) = none := by
  rw [List.find?_eq_none]
  intro x hx
  have hmem := List.of_mem_filter hx
  simp only [bne, Bool.not_eq_true'] at hmem
  simp [hmem]

/-- Deleting the CodeVerifier row for a state leaves no row for that state. -/
theorem DB.findCodeVerifier_delete (db : DB) (s : String) :
    (db.deleteCodeVerifier s).findCodeVerifier s = none := by
  unfold DB.deleteCodeVerifier DB.findCodeVerifier
  exact find?_filter_ne _ _

theorem failurePage_inj {a b : String} (h : failurePage a = failurePage b) : a = b := by
  simpa [failurePage] using h

theorem append_ne_of_length_lt {p s t : String} (h : t.length < p.length) : p ++ s ≠ t := by
  intro he
  have hl := congrArg String.length he
  rw [String.length_append] at hl
  omega

/-! ### Concrete fixtures used by witnesses and counterexamples -/

def envW : Env := ⟨"shop.example.com", "client123"⟩

def dbW : DB := ⟨[⟨"S1", "V1"⟩], []⟩

def cbUpW : CallbackUpstream :=
  { openidOk := true, openidStatusText := "OK",
    tokenEndpoint := "https://shop.example.com/oauth/token",
    tokenOk := true, tokenStatusText := "OK", tokenBodyText := "",
    accessToken := "tok1", expiresIn := some 3600, newTokenId := "T1",
    now := 1700000000000, commitCookie := fun i => "__customer_session=" ++ i }

def cbUpFailW : CallbackUpstream :=
  { cbUpW with
    tokenOk := false
    tokenStatusText := "Bad Request"
    tokenBodyText := "invalid_grant" }

def cbUpZeroW : CallbackUpstream := { cbUpW with expiresIn := some 0 }

def initUpW : InitUpstream :=
  { openidOk := true, openidStatusText := "OK",
    authorizationEndpoint := "https://shop.example.com/oauth/authorize",
    codeVerifier := "pkce-verifier-1", stateTok := "S1" }

def initUpFailW : InitUpstream :=
  { initUpW with
    openidOk := false
    openidStatusText := "Internal Server Error" }

def olUpW : OrderListUpstream :=
  { wellKnownOk := true, wellKnownStatusText := "OK",
    graphqlApi := "https://shop.example.com/customer/api/graphql",
    now := 1700000000000 }

def tokW : CustomerAccessTokenRecord :=
  ⟨"T1", "shop.example.com", "tok1", some 1700000000000⟩

def dbTokW : DB := ⟨[], [tokW]⟩

/-! ### Claims -/

/-- C3: generateCodeChallenge is deterministic (two calls on the same verifier
return the same result) and equals the base64url encoding of the SHA-256 digest
of the verifier's UTF-8 bytes. -/
theorem generateCodeChallenge_deterministic_base64url_sha256 (v : String) :
    generateCodeChallenge v = generateCodeChallenge v ∧
    generateCodeChallenge v = challengeSpec v := by
  refine ⟨rfl, ?_⟩
  simp [generateCodeChallenge, challengeSpec, createHashSha256, Sha256Hasher.update,
    Sha256Hasher.digestBase64url]

/-- C2: a callback carrying code and state where no CodeVerifier row exists for
that state fails with the invalid-state error, leaves the database unchanged,
and performs only the verifier lookup: neither the token exchange nor the token
persist is reached. -/
theorem callback_unknown_state_rejected (code stateParam : Option String) (host : String)
    (env : Env) (up : CallbackUpstream) (db : DB)
    (hc : jsTruthyOptStr code = true) (hs : jsTruthyOptStr stateParam = true)
    (hfind : db.findCodeVerifier (stateParam.getD "") = none) :
    callbackLoader code stateParam host env up db =
      (failurePage "Invalid state parameter or code verifier not found", db,
       [Ev.evFindVerifier (stateParam.getD "")]) :=
  callbackLoader_nostate_eq code stateParam host env up db hc hs hfind

/-- C2 witness: a concrete callback with an unknown state. -/
theorem callback_unknown_state_rejected_witness :
    callbackLoader (some "authcode") (some "S9") "h.example" envW cbUpW ⟨[], []⟩ =
      (failurePage "Invalid state parameter or code verifier not found", ⟨[], []⟩,
       [Ev.evFindVerifier "S9"]) :=
  callback_unknown_state_rejected (some "authcode") (some "S9") "h.example" envW cbUpW
    ⟨[], []⟩ rfl rfl rfl

/-- C8: a callback missing the code or the state query parameter returns the
structured result success:false / "Missing code or state parameter" with the
database untouched and an empty operation trace (no reads, no writes). -/
theorem callback_missing_param_no_db_ops (code stateParam : Option String) (host : String)
    (env : Env) (up : CallbackUpstream) (db : DB)
    (h : code = none ∨ stateParam = none) :
    callbackLoader code stateParam host env up db =
      (failurePage "Missing code or state parameter", db, []) := by
  apply callbackLoader_missing_eq
  rcases h with h | h <;> subst h <;> simp [jsTruthyOptStr]

/-- C8 witness: a concrete callback with the code parameter absent. -/
theorem callback_missing_param_no_db_ops_witness :
    callbackLoader none (some "S1") "h.example" envW cbUpW dbW =
      (failurePage "Missing code or state parameter", dbW, []) :=
  callback_missing_param_no_db_ops none (some "S1") "h.example" envW cbUpW dbW
    (Or.inl rfl)

/-- C4: a stored token whose expiresAt lies strictly in the past is rejected by
the order-list loader with "Access token has expired"; the loader's result is
the failure page, not the token, and the database (the stored row) is
unchanged. -/
theorem orderList_expired_token_rejected (tokenId : Option String) (env : Env)
    (up : OrderListUpstream) (db : DB) (tok : CustomerAccessTokenRecord) (t : Int)
    (ht : jsTruthyOptStr tokenId = true)
    (hfind : db.findCustomerAccessToken (tokenId.getD "") = some tok)
    (hexp : tok.expiresAt = some t) (hpast : t < up.now) :
    orderListLoader tokenId env up db =
      (failurePage "Access token has expired", db, [Ev.evFindToken (tokenId.getD "")]) :=
  orderListLoader_expired_eq tokenId env up db tok t ht hfind hexp hpast

/-- C4 witness: a concrete stored token that expired one second before the
lookup instant. -/
theorem orderList_expired_token_rejected_witness :
    orderListLoader (some "T1") envW olUpW
      ⟨[], [⟨"T1", "shop.example.com", "tok1", some 1699999999000⟩]⟩ =
      (failurePage "Access token has expired",
       ⟨[], [⟨"T1", "shop.example.com", "tok1", some 1699999999000⟩]⟩,
       [Ev.evFindToken "T1"]) :=
  orderList_expired_token_rejected (some "T1") envW olUpW
    ⟨[], [⟨"T1", "shop.example.com", "tok1", some 1699999999000⟩]⟩
    ⟨"T1", "shop.example.com", "tok1", some 1699999999000⟩ 1699999999000
    rfl rfl rfl (by decide)

/-- C7: when the discovery fetch fails at initiation, the loader returns an
error payload embedding the provider's status text, issues no redirect, leaves
the database unchanged (no CodeVerifier row written), and its trace shows only
the discovery fetch. -/
theorem initiation_discovery_failure_no_store (host : String) (env : Env)
    (up : InitUpstream) (db : DB) (hng : up.openidOk = false) :
    initiationLoader host env up db =
      (.page [("error",
         .jstr ("Failed to fetch OpenID configuration: " ++ up.openidStatusText))], db,
       [Ev.evFetchOpenidConfig
         ("https://" ++ env.shopDomain ++ "/.well-known/openid-configuration")]) :=
  initiationLoader_ng_eq host env up db hng

/-- C7 witness: a concrete initiation whose discovery endpoint answers with a
server error. -/
theorem initiation_discovery_failure_no_store_witness :
    initiationLoader "h.example" envW initUpFailW ⟨[], []⟩ =
      (.page [("error",
         .jstr "Failed to fetch OpenID configuration: Internal Server Error")], ⟨[], []⟩,
       [Ev.evFetchOpenidConfig
         "https://shop.example.com/.well-known/openid-configuration"]) :=
  initiation_discovery_failure_no_store "h.example" envW initUpFailW ⟨[], []⟩ rfl

/-- C6: a successful initiation redirects to the discovered authorization
endpoint carrying exactly client_id, response_type=code, the callback
redirect_uri derived from the request host, the fixed scope, the fresh state,
the challenge derived from the stored verifier, and code_challenge_method=S256;
the state/verifier pair is stored. -/
theorem initiation_redirect_exact_params (host : String) (env : Env)
    (up : InitUpstream) (db : DB) (hok : up.openidOk = true) :
    initiationLoader host env up db =
      (.redirect ⟨up.authorizationEndpoint,
        [("client_id", env.clientId), ("response_type", "code"),
         ("redirect_uri", "https://" ++ host ++ "/customer-account-api/callback"),
         ("scope", "openid email customer-account-api:full"),
         ("state", up.stateTok),
         ("code_challenge", generateCodeChallenge up.codeVerifier),
         ("code_challenge_method", "S256")]⟩ none,
       db.createCodeVerifier up.stateTok up.codeVerifier,
       [Ev.evFetchOpenidConfig
          ("https://" ++ env.shopDomain ++ "/.well-known/openid-configuration"),
        Ev.evCreateVerifier up.stateTok up.codeVerifier]) :=
  initiationLoader_ok_eq host env up db hok

/-- C6 witness: a concrete successful initiation. -/
theorem initiation_redirect_exact_params_witness :
    initiationLoader "h.example" envW initUpW ⟨[], []⟩ =
      (.redirect ⟨"https://shop.example.com/oauth/authorize",
        [("client_id", "client123"), ("response_type", "code"),
         ("redirect_uri", "https://h.example/customer-account-api/callback"),
         ("scope", "openid email customer-account-api:full"),
         ("state", "S1"),
         ("code_challenge", generateCodeChallenge "pkce-verifier-1"),
         ("code_challenge_method", "S256")]⟩ none,
       DB.createCodeVerifier ⟨[], []⟩ "S1" "pkce-verifier-1",
       [Ev.evFetchOpenidConfig
          "https://shop.example.com/.well-known/openid-configuration",
        Ev.evCreateVerifier "S1" "pkce-verifier-1"]) :=
  initiation_redirect_exact_params "h.example" envW initUpW ⟨[], []⟩ rfl

/-- C1 fails on the code: at a concrete callback whose token exchange returns a
non-success status, the CodeVerifier row for the matching state is still in the
store afterwards — the source deletes the verifier only after a successful
exchange (and after the token row is written), not between lookup and
exchange. -/
theorem callback_exchange_failure_keeps_verifier_cx :
    (callbackLoader (some "authcode") (some "S1") "h.example" envW cbUpFailW dbW).2.1 =
      dbW ∧
    (callbackLoader (some "authcode") (some "S1") "h.example" envW cbUpFailW dbW).1 =
      failurePage "Token exchange failed: Bad Request - invalid_grant" := by
  exact ⟨rfl, rfl⟩

/-- C1 amended: for a callback whose state matches a stored CodeVerifier
record, the record is deleted only when the token exchange succeeds (the
deletion happens after the exchange and after the token row is written); a
callback that fails at or before the exchange leaves the database — including
that CodeVerifier record — unchanged. -/
theorem callback_verifier_single_use_on_success (code stateParam : Option String)
    (host : String) (env : Env) (up : CallbackUpstream) (db : DB)
    (r : CodeVerifierRecord)
    (hc : jsTruthyOptStr code = true) (hs : jsTruthyOptStr stateParam = true)
    (hfind : db.findCodeVerifier (stateParam.getD "") = some r) :
    (up.tokenOk = false → (callbackLoader code stateParam host env up db).2.1 = db) ∧
    (up.openidOk = true → up.tokenOk = true →
      ((callbackLoader code stateParam host env up db).2.1).findCodeVerifier
        (stateParam.getD "") = none) := by
  constructor
  · intro hng
    cases hok : up.openidOk
    · rw [callbackLoader_openid_ng_eq code stateParam host env up db r hc hs hfind hok]
    · rw [callbackLoader_token_ng_eq code stateParam host env up db r hc hs hfind hok hng]
  · intro hok htok
    rw [callbackLoader_success_eq code stateParam host env up db r hc hs hfind hok htok]
    exact DB.findCodeVerifier_delete _ _

/-- C1 witness: a failing exchange leaves the store unchanged; a succeeding one
leaves no CodeVerifier row for the state. -/
theorem callback_verifier_single_use_on_success_witness :
    (callbackLoader (some "authcode") (some "S1") "h.example" envW cbUpFailW dbW).2.1 =
      dbW ∧
    ((callbackLoader (some "authcode") (some "S1") "h.example" envW cbUpW dbW).2.1).findCodeVerifier
      "S1" = none :=
  ⟨(callback_verifier_single_use_on_success (some "authcode") (some "S1") "h.example"
      envW cbUpFailW dbW ⟨"S1", "V1"⟩ rfl rfl rfl).1 rfl,
   (callback_verifier_single_use_on_success (some "authcode") (some "S1") "h.example"
      envW cbUpW dbW ⟨"S1", "V1"⟩ rfl rfl rfl).2 rfl rfl⟩

/-- C5 fails on the code: a successful exchange response that contains
expires_in = 0 is stored with expiresAt null (the source tests `expires_in`
for JS truthiness, and 0 is falsy), not with expiresAt = now + 0 seconds as
the claim requires for every response containing expires_in. -/
theorem callback_expires_in_zero_null_cx :
    cbUpZeroW.expiresIn = some 0 ∧
    (callbackLoader (some "authcode") (some "S1") "h.example" envW cbUpZeroW
      dbW).2.1.customerAccessTokens =
      [⟨"T1", "shop.example.com", "tok1", none⟩] ∧
    (callbackLoader (some "authcode") (some "S1") "h.example" envW cbUpZeroW
      dbW).2.1.customerAccessTokens ≠
      [⟨"T1", "shop.example.com", "tok1", some (cbUpZeroW.now + (0 : Nat) * 1000)⟩] := by
  refine ⟨rfl, rfl, ?_⟩
  decide

/-- C5 amended: on the success path, a nonzero expires_in yields
expiresAt = now + expires_in seconds; an absent or zero expires_in yields
expiresAt null. -/
theorem callback_expiry_truthy_computation (code stateParam : Option String)
    (host : String) (env : Env) (up : CallbackUpstream) (db : DB)
    (r : CodeVerifierRecord)
    (hc : jsTruthyOptStr code = true) (hs : jsTruthyOptStr stateParam = true)
    (hfind : db.findCodeVerifier (stateParam.getD "") = some r)
    (hok : up.openidOk = true) (htok : up.tokenOk = true) :
    (∀ n : Nat, up.expiresIn = some n → n ≠ 0 →
      (callbackLoader code stateParam host env up
        db).2.1.customerAccessTokens.getLast? =
        some ⟨up.newTokenId, env.shopDomain, up.accessToken,
          some (up.now + (n : Nat) * 1000)⟩) ∧
    ((up.expiresIn = none ∨ up.expiresIn = some 0) →
      (callbackLoader code stateParam host env up
        db).2.1.customerAccessTokens.getLast? =
        some ⟨up.newTokenId, env.shopDomain, up.accessToken, none⟩) := by
  rw [callbackLoader_success_eq code stateParam host env up db r hc hs hfind hok htok]
  constructor
  · intro n hn hn0
    simp [DB.deleteCodeVerifier, DB.createCustomerAccessToken, hn, jsTruthyOptNat, hn0]
  · rintro (hn | hn) <;>
      simp [DB.deleteCodeVerifier, DB.createCustomerAccessToken, hn, jsTruthyOptNat]

/-- C5 witness: a concrete exchange with expires_in = 3600 stores
expiresAt = now + 3600000 ms. -/
theorem callback_expiry_truthy_computation_witness :
    (callbackLoader (some "authcode") (some "S1") "h.example" envW cbUpW
      dbW).2.1.customerAccessTokens.getLast? =
      some ⟨"T1", "shop.example.com", "tok1",
        some (1700000000000 + (3600 : Nat) * 1000)⟩ :=
  (callback_expiry_truthy_computation (some "authcode") (some "S1") "h.example" envW
    cbUpW dbW ⟨"S1", "V1"⟩ rfl rfl rfl rfl rfl).1 3600 rfl (by decide)

/-- C10: the order-list expiry check is strict — the loader reports
"Access token has expired" exactly when expiresAt is set and strictly below the
current instant; a token with expiresAt null or equal to the current instant is
accepted and returned as valid (given the config fetch succeeds). -/
theorem orderList_expiry_strict_boundary (tokenId : Option String) (env : Env)
    (up : OrderListUpstream) (db : DB) (tok : CustomerAccessTokenRecord)
    (ht : jsTruthyOptStr tokenId = true)
    (hfind : db.findCustomerAccessToken (tokenId.getD "") = some tok) :
    ((orderListLoader tokenId env up db).1 = failurePage "Access token has expired" ↔
      ∃ t, tok.expiresAt = some t ∧ t < up.now) ∧
    ((tok.expiresAt = none ∨ tok.expiresAt = some up.now) → up.wellKnownOk = true →
      (orderListLoader tokenId env up db).1 =
        .page [("success", .jbool true), ("tokenId", .jstr tok.id),
          ("accessToken", .jstr tok.accessToken), ("shop", .jstr tok.shop),
          ("graphqlApiUrl", .jstr up.graphqlApi),
          ("expiresAt", match tok.expiresAt with
            | some t => .jnum t
            | none => .jundefined)]) := by
  by_cases hl : (match tok.expiresAt with
                 | none => false
                 | some t => decide (up.now > t)) = true
  · obtain ⟨t, hexp, hlt⟩ : ∃ t, tok.expiresAt = some t ∧ t < up.now := by
      rcases hE : tok.expiresAt with _ | t
      · rw [hE] at hl
        simp at hl
      · rw [hE] at hl
        simp at hl
        exact ⟨t, rfl, hl⟩
    rw [orderListLoader_expired_eq tokenId env up db tok t ht hfind hexp hlt]
    constructor
    · exact ⟨fun _ => ⟨t, hexp, hlt⟩, fun _ => rfl⟩
    · rintro (hE | hE) hok
      · rw [hE] at hexp
        cases hexp
      · rw [hE] at hexp
        injection hexp with h'
        subst h'
        exact absurd hlt (lt_irrefl _)
  · have hl' : (match tok.expiresAt with
                | none => false
                | some t => decide (up.now > t)) = false := by
      simpa using hl
    constructor
    · constructor
      · intro hres
        cases hok : up.wellKnownOk
        · rw [orderListLoader_wellknown_ng_eq tokenId env up db tok ht hfind hl' hok]
            at hres
          exact absurd (failurePage_inj hres) (append_ne_of_length_lt (by decide))
        · rw [orderListLoader_success_eq tokenId env up db tok ht hfind hl' hok] at hres
          simp [failurePage] at hres
      · rintro ⟨t, hexp, hlt⟩
        rw [hexp] at hl'
        simp at hl'
        exact absurd hlt (not_lt.mpr hl')
    · intro _ hok
      rw [orderListLoader_success_eq tokenId env up db tok ht hfind hl' hok]

/-- C10 witness: a token whose expiresAt equals the lookup instant exactly is
returned as valid. -/
theorem orderList_expiry_strict_boundary_witness :
    (orderListLoader (some "T1") envW olUpW dbTokW).1 =
      .page [("success", .jbool true), ("tokenId", .jstr "T1"),
        ("accessToken", .jstr "tok1"), ("shop", .jstr "shop.example.com"),
        ("graphqlApiUrl", .jstr "https://shop.example.com/customer/api/graphql"),
        ("expiresAt", .jnum 1700000000000)] :=
  (orderList_expiry_strict_boundary (some "T1") envW olUpW dbTokW tokW rfl rfl).2
    (Or.inr rfl) rfl

/-- C9 fails on the code for the initiation route: at a concrete discovery
failure the initiation loader's payload is an object with only an error field —
its field lookup for "success" yields nothing — while the callback's payload
does carry success:false. -/
theorem initiation_error_payload_lacks_success_cx :
    (initiationLoader "h.example" envW initUpFailW ⟨[], []⟩).1 =
      .page [("error",
        .jstr "Failed to fetch OpenID configuration: Internal Server Error")] ∧
    ((initiationLoader "h.example" envW initUpFailW ⟨[], []⟩).1).field "success" = none ∧
    ((callbackLoader none none "h.example" envW cbUpW ⟨[], []⟩).1).field "success" =
      some (.jbool false) := by
  exact ⟨rfl, rfl, rfl⟩

/-- C9 amended: every failure in each of the three loaders is caught at the top
of that loader and converted to a structured page result; the callback and
order-list loaders return success:false plus error, while the initiation
loader's error payload carries only the error field (no success flag). -/
theorem loaders_structured_failure_shape :
    (∀ (host : String) (env : Env) (up : InitUpstream) (db : DB),
      (∃ u, (initiationLoader host env up db).1 = .redirect u none) ∨
      (∃ msg, (initiationLoader host env up db).1 = .page [("error", .jstr msg)])) ∧
    (∀ (code stateParam : Option String) (host : String) (env : Env)
        (up : CallbackUpstream) (db : DB),
      (∃ c, (callbackLoader code stateParam host env up db).1 =
        .redirect ⟨"/customer-account-api/order-list", []⟩ (some c)) ∨
      (∃ msg, (callbackLoader code stateParam host env up db).1 = failurePage msg)) ∧
    (∀ (tokenId : Option String) (env : Env) (up : OrderListUpstream) (db : DB),
      (∃ fs, (orderListLoader tokenId env up db).1 =
        .page (("success", .jbool true) :: fs)) ∨
      (∃ msg, (orderListLoader tokenId env up db).1 = failurePage msg)) := by
  refine ⟨?_, ?_, ?_⟩
  · intro host env up db
    cases h : up.openidOk
    · exact Or.inr ⟨"Failed to fetch OpenID configuration: " ++ up.openidStatusText,
        by rw [initiationLoader_ng_eq host env up db h]⟩
    · exact Or.inl ⟨_, by rw [initiationLoader_ok_eq host env up db h]⟩
  · intro code stateParam host env up db
    cases hg : (!(jsTruthyOptStr code) || !(jsTruthyOptStr stateParam))
    · have hg' : jsTruthyOptStr code = true ∧ jsTruthyOptStr stateParam = true := by
        simpa using hg
      obtain ⟨hc, hs⟩ := hg'
      cases hfind : db.findCodeVerifier (stateParam.getD "") with
      | none =>
        exact Or.inr ⟨_,
          by rw [callbackLoader_nostate_eq code stateParam host env up db hc hs hfind]⟩
      | some r =>
        cases hok : up.openidOk
        · exact Or.inr ⟨_, by
            rw [callbackLoader_openid_ng_eq code stateParam host env up db r hc hs
              hfind hok]⟩
        · cases htok : up.tokenOk
          · exact Or.inr ⟨_, by
              rw [callbackLoader_token_ng_eq code stateParam host env up db r hc hs
                hfind hok htok]⟩
          · exact Or.inl ⟨_, by
              rw [callbackLoader_success_eq code stateParam host env up db r hc hs
                hfind hok htok]⟩
    · exact Or.inr ⟨_, by rw [callbackLoader_missing_eq code stateParam host env up db hg]⟩
  · intro tokenId env up db
    cases ht : jsTruthyOptStr tokenId
    · exact Or.inr ⟨_, by rw [orderListLoader_noauth_eq tokenId env up db ht]⟩
    · cases hfind : db.findCustomerAccessToken (tokenId.getD "") with
      | none =>
        exact Or.inr ⟨_, by rw [orderListLoader_notfound_eq tokenId env up db ht hfind]⟩
      | some tok =>
        cases hl : (match tok.expiresAt with
                    | none => false
                    | some t => decide (up.now > t))
        · cases hok : up.wellKnownOk
          · exact Or.inr ⟨_, by
              rw [orderListLoader_wellknown_ng_eq tokenId env up db tok ht hfind hl hok]⟩
          · exact Or.inl ⟨_, by
              rw [orderListLoader_success_eq tokenId env up db tok ht hfind hl hok]⟩
        · rcases hE : tok.expiresAt with _ | t
          · rw [hE] at hl
            simp at hl
          · rw [hE] at hl
            have hlt : t < up.now := by simpa using hl
            exact Or.inr ⟨_, by
              rw [orderListLoader_expired_eq tokenId env up db tok t ht hfind hE hlt]⟩

end CustomerAccountApi
